import Mathlib

/-!
Shallow embedding of the image format converter (`imgconvrtr.py`).

The pure pixel- and control-flow logic of the converter is translated
directly from the source.  External effects (the PIL container decoder,
the libwebp C entry points, the external optimizer subprocesses, the SVG
scene-graph parser and PDF rasterizer) are modelled as oracle functions
gathered in an `Env` record, mirroring exactly how the source consults
them; the branching, fallback and transform logic around them is the
code under verification.
-/

/-- One RGBA pixel, each channel in 0..255.  For images in RGB mode the
`a` field is a representation placeholder (set to 255) — the `mode` tag
says whether an alpha channel exists. -/
structure Pixel where
  r : Nat
  g : Nat
  b : Nat
  a : Nat
deriving DecidableEq, Repr

/-- PIL color modes that occur in the pipeline after decoding. -/
inductive Mode where
  | RGBA
  | RGB
deriving DecidableEq, Repr

/-- Model of a PIL `Image`: mode, size, flat pixel list (row major) and
the declared container format (`Image.format`, `none` after any
conversion, as in PIL where `convert`/`frombytes` yield `format = None`). -/
structure PILImage where
  mode : Mode
  width : Nat
  height : Nat
  px : List Pixel
  format : Option String
deriving DecidableEq, Repr

/-- Keyword options handed to `img.save` (the general-purpose library's
writer), as built by `convert_img_format`. -/
structure SaveOpts where
  format : Option String
  quality : Option Nat
  lossless : Option Bool
  optimize : Option Bool
deriving DecidableEq, Repr

/-- The encoded artifact returned by the converter, as a free record of
which encoder produced it and with what inputs: a PIL `save` call, the
native libwebp encoder's bytes, or an external tool's output. -/
inductive Encoded where
  | pil (opts : SaveOpts) (img : PILImage)
  | nativeWebp (data : List Nat)
  | mozjpegOut (data : List Nat)
  | toolOut (tool : String) (data : List Nat)
deriving DecidableEq, Repr

/-- Errors surfaced by the converter, one constructor per raise site
kind: empty input (`ValueError`, the spec's `InputError`), unidentifiable
container (`ValueError`, the spec's `DecodeError`), SVG rasterization
failure (`RuntimeError`), AVIF encode failure (`RuntimeError`), and an
error raised from inside the general-purpose library's `save`. -/
inductive ConvError where
  | inputError (msg : String)
  | decodeError (msg : String)
  | rasterizeError (msg : String)
  | encodeError (msg : String)
  | pilError (msg : String)
deriving DecidableEq, Repr

/-- Equality of fallible results is decidable when both components are,
so concrete runs of the converter can be checked by evaluation. -/
instance {e a : Type} [DecidableEq e] [DecidableEq a] : DecidableEq (Except e a) := fun x y =>
  match x, y with
  | .ok u, .ok v => if h : u = v then isTrue (by rw [h]) else isFalse (by simp [h])
  | .error u, .error v => if h : u = v then isTrue (by rw [h]) else isFalse (by simp [h])
  | .ok _, .error _ => isFalse (by simp)
  | .error _, .ok _ => isFalse (by simp)

/-- A ReportLab drawing as used by `rasterize_svg`: intrinsic extent and
the accumulated per-axis scale of its drawing transform. -/
structure Drawing where
  width : ℚ
  height : ℚ
  sx : ℚ
  sy : ℚ
deriving DecidableEq, Repr

/-- The process environment the converter consults: availability booleans
from the module-level probes, and oracles for each external call.  Each
`Option`-returning oracle yields `none` when the corresponding native or
subprocess call fails in any of its ways (zero-length result, null output
pointer, raised error, non-zero exit). -/
structure Env where
  libwebp : Bool
  avifOk : Bool
  tools : String → Bool
  pilOpen : List Nat → Except String PILImage
  WebPEncodeRGBA : List Nat → Nat → Nat → Nat → Nat → Option (List Nat)
  WebPEncodeLosslessRGBA : List Nat → Nat → Nat → Nat → Option (List Nat)
  WebPGetInfo : List Nat → Option (Nat × Nat)
  WebPDecodeRGBA : List Nat → Option (List Nat)
  svgOk : Bool
  svg2rlg : List Char → Option Drawing
  convert_from_bytes : Drawing → Nat → Option PILImage
  pngToolRun : String → Encoded → Option Encoded
  cjpegRun : List Nat → Nat → Nat → Nat → Option (List Nat)

/-- The converter's input: raw bytes, or a repositionable stream with an
optional filename (`image_file.name`); the stream's content is what
`read()` yields after `seek(0)`. -/
inductive Input where
  | bytes (data : List Nat)
  | stream (data : List Nat) (name : Option String)

/-- `image_file.name` when present (bytes objects carry no name). -/
def inputName : Input → Option String
  | .bytes _ => none
  | .stream _ n => n

/-- Lines 590-603: read all bytes, raising `ValueError` on empty input,
for both the file-like and the raw-bytes case. -/
def readInput : Input → Except ConvError (List Nat)
  | .bytes d =>
    if d = [] then .error (.inputError "Empty image data provided") else .ok d
  | .stream d _ =>
    if d = [] then
      .error (.inputError "Could not read image file: Empty file or could not read file data")
    else .ok d

/-- Is a byte a UTF-8 continuation byte. -/
def isUtf8Cont (b : Nat) : Bool := 0x80 ≤ b && b ≤ 0xBF

/-- Valid first continuation ranges for 3-byte leads (E0 narrows to
A0..BF, ED to 80..9F, excluding surrogates). -/
def utf8Cont3Ok (lead b1 : Nat) : Bool :=
  if lead = 0xE0 then 0xA0 ≤ b1 && b1 ≤ 0xBF
  else if lead = 0xED then 0x80 ≤ b1 && b1 ≤ 0x9F
  else isUtf8Cont b1

/-- Valid first continuation ranges for 4-byte leads (F0 narrows to
90..BF, F4 to 80..8F). -/
def utf8Cont4Ok (lead b1 : Nat) : Bool :=
  if lead = 0xF0 then 0x90 ≤ b1 && b1 ≤ 0xBF
  else if lead = 0xF4 then 0x80 ≤ b1 && b1 ≤ 0x8F
  else isUtf8Cont b1

/-- Python `bytes.decode("utf-8", errors="ignore")`: decode valid UTF-8
sequences, skip bytes of invalid ones.  (Skipping the lead byte of an
invalid sequence and rescanning is extensionally the same as Python's
maximal-subpart skipping, because a continuation byte alone is never
valid and is itself skipped.) -/
def utf8IgnoreFuel : Nat → List Nat → List Char
  | 0, _ => []
  | _, [] => []
  | fuel + 1, b :: rest =>
    if b < 0x80 then Char.ofNat b :: utf8IgnoreFuel fuel rest
    else if 0xC2 ≤ b && b ≤ 0xDF then
      match rest with
      | [] => []
      | b1 :: rest2 =>
        if isUtf8Cont b1 then
          Char.ofNat ((b - 0xC0) * 64 + (b1 - 0x80)) :: utf8IgnoreFuel fuel rest2
        else utf8IgnoreFuel fuel rest
    else if 0xE0 ≤ b && b ≤ 0xEF then
      match rest with
      | b1 :: b2 :: rest3 =>
        if utf8Cont3Ok b b1 && isUtf8Cont b2 then
          Char.ofNat ((b - 0xE0) * 4096 + (b1 - 0x80) * 64 + (b2 - 0x80))
            :: utf8IgnoreFuel fuel rest3
        else utf8IgnoreFuel fuel rest
      | _ => utf8IgnoreFuel fuel rest
    else if 0xF0 ≤ b && b ≤ 0xF4 then
      match rest with
      | b1 :: b2 :: b3 :: rest4 =>
        if utf8Cont4Ok b b1 && isUtf8Cont b2 && isUtf8Cont b3 then
          Char.ofNat ((b - 0xF0) * 262144 + (b1 - 0x80) * 4096 + (b2 - 0x80) * 64 + (b3 - 0x80))
            :: utf8IgnoreFuel fuel rest4
        else utf8IgnoreFuel fuel rest
      | _ => utf8IgnoreFuel fuel rest
    else utf8IgnoreFuel fuel rest

/-- The decoder applied with enough fuel to consume the whole input
(every step consumes at least one byte, so `l.length` steps suffice). -/
def utf8Ignore (l : List Nat) : List Char := utf8IgnoreFuel l.length l

/-- Python `str.strip()` whitespace (the ASCII set; the pipeline only
tests ASCII markup heads). -/
def isPySpace (c : Char) : Bool :=
  c = ' ' || c = '\t' || c = '\n' || c = '\r' || c = '\x0b' || c = '\x0c'

/-- Strip leading and trailing whitespace from a character list. -/
def pyStrip (l : List Char) : List Char :=
  ((l.dropWhile isPySpace).reverse.dropWhile isPySpace).reverse

/-- Does the character list start with the given pattern. -/
def strStarts : List Char → List Char → Bool
  | _, [] => true
  | [], _ :: _ => false
  | c :: cs, p :: ps => c = p && strStarts cs ps

/-- Does the character list end with the given pattern. -/
def strEnds (s p : List Char) : Bool := strStarts s.reverse p.reverse

/-- Python `str.lower()` as used on the target format string and the
filename (character-wise lowercasing). -/
def pyLower (s : String) : String := ⟨s.data.map Char.toLower⟩

/-- Lines 609-614: best-effort-decode the first 200 bytes, strip, and
test for an XML declaration or an `<svg` tag. -/
def svgTextSniff (data : List Nat) : Bool :=
  let t := pyStrip (utf8Ignore (data.take 200))
  strStarts t ("<?xml".toList) || strStarts t ("<svg".toList)

/-- Lines 616-618: a truthy filename whose lowercase form ends in `.svg`. -/
def svgNameSniff : Option String → Bool
  | none => false
  | some n => if n = "" then false else strEnds (n.toList.map Char.toLower) (".svg".toList)

/-- Lines 606-618: the full SVG sniff over bytes plus optional filename. -/
def sniffSvg (data : List Nat) (name : Option String) : Bool :=
  svgTextSniff data || svgNameSniff name

/-- PIL `Image.convert("RGBA")` as applied at line 634: identity on RGBA
(format kept), otherwise add an opaque alpha channel — and, as in PIL,
the result of a real conversion carries `format = None`. -/
def toRGBA (img : PILImage) : PILImage :=
  match img.mode with
  | .RGBA => img
  | .RGB =>
    { mode := .RGBA, width := img.width, height := img.height
      px := img.px.map (fun p => { p with a := 255 }), format := none }

/-- PIL `Image.convert("RGB")` at line 723: drop the alpha channel with
no blending; the color channels pass through unchanged. -/
def toRGB (img : PILImage) : PILImage :=
  { mode := .RGB, width := img.width, height := img.height
    px := img.px.map (fun p => { p with a := 255 }), format := none }

/-- PIL `Image.tobytes()`: RGBA is 4 bytes per pixel, RGB is 3. -/
def PILImage.tobytes (img : PILImage) : List Nat :=
  match img.mode with
  | .RGBA => (img.px.map (fun p => [p.r, p.g, p.b, p.a])).flatten
  | .RGB => (img.px.map (fun p => [p.r, p.g, p.b])).flatten

/-- Group a flat byte list into RGBA pixels (4 bytes each). -/
def bytesToPixels : List Nat → List Pixel
  | r :: g :: b :: a :: rest => ⟨r, g, b, a⟩ :: bytesToPixels rest
  | _ => []

/-- PIL `Image.frombytes("RGBA", (w, h), data)` at line 683; the result
carries no declared container format. -/
def fromBytes (w h : Nat) (data : List Nat) : PILImage :=
  { mode := .RGBA, width := w, height := h, px := bytesToPixels data, format := none }

/-- PIL's MULDIV255 rounding primitive used by `paste` with a mask:
`t = x*y + 128; ((t >> 8) + t) >> 8`. -/
def muldiv255 (x y : Nat) : Nat :=
  let t := x * y + 128
  (t / 256 + t) / 256

/-- One channel of pasting color `c` with mask weight `a` over a white
(255) background, PIL's per-channel blend. -/
def blendWhite (c a : Nat) : Nat :=
  muldiv255 255 (255 - a) + muldiv255 c a

/-- Lines 699-703: composite an RGBA image onto an opaque white RGB
background using its alpha channel as the paste mask. -/
def flattenWhite (img : PILImage) : PILImage :=
  { mode := .RGB, width := img.width, height := img.height
    px := img.px.map (fun p =>
      ⟨blendWhite p.r p.a, blendWhite p.g p.a, blendWhite p.b p.a, 255⟩)
    format := none }

/-- `img.save(buffer, **opts)` against an in-memory buffer with no
filename: with no `format` the library cannot determine an output format
and raises; the AVIF writer raises when no AVIF support is present;
otherwise the save succeeds and the artifact records the call. -/
def pilSave (env : Env) (opts : SaveOpts) (img : PILImage) : Except ConvError Encoded :=
  match opts.format with
  | none => .error (.pilError "unknown file extension: no format and no filename")
  | some f =>
    if f = "AVIF" ∧ ¬env.avifOk then .error (.pilError "AVIF save not supported")
    else .ok (.pil opts img)

/-- Lines 478-526, `encode_to_webp`: native libwebp encode of an RGBA
buffer; raises when libwebp is absent or the native call fails
(`size == 0` / null output / raised error, collapsed into the oracle's
`none`).  Stride is `width * 4` as in the source. -/
def encode_to_webp (env : Env) (rgba_data : List Nat) (width height : Nat)
    (quality_factor : Nat) (lossless : Bool) : Except String (List Nat) :=
  if ¬env.libwebp then .error "libwebp library not found. Please install libwebp."
  else
    let stride := width * 4
    let res :=
      if lossless then env.WebPEncodeLosslessRGBA rgba_data width height stride
      else env.WebPEncodeRGBA rgba_data width height stride quality_factor
    match res with
    | some out => .ok out
    | none => .error "WebP encoding failed"

/-- Lines 529-567, `decode_from_webp`: native libwebp decode; raises when
libwebp is absent, `WebPGetInfo` rejects the data, or the decode call
fails; on success copies exactly `w*h*4` bytes from the native buffer. -/
def decode_from_webp (env : Env) (webp_data : List Nat) :
    Except String (List Nat × Nat × Nat) :=
  if ¬env.libwebp then .error "libwebp library not found. Please install libwebp."
  else
    match env.WebPGetInfo webp_data with
    | none => .error "Invalid WebP data"
    | some (w, h) =>
      match env.WebPDecodeRGBA webp_data with
      | none => .error "WebP decoding failed"
      | some rgba => .ok (rgba.take (w * h * 4), w, h)

/-- Lines 387-427, `optimize_png`: pick the tool (`auto` prefers oxipng),
return the input unchanged when the tool is unavailable, otherwise run the
temp-file round trip via the subprocess oracle and return the input
unchanged on any failure. -/
def optimize_png (env : Env) (png_data : Encoded) (tool : String) : Encoded :=
  let tool2 := if tool = "auto" then (if env.tools "oxipng" then "oxipng" else "optipng") else tool
  if ¬env.tools tool2 then png_data
  else
    match env.pngToolRun tool2 png_data with
    | some optimized_data => optimized_data
    | none => png_data

/-- Lines 430-475, `optimize_jpeg_mozjpeg`: `none` when the tool is
unavailable or the subprocess round trip fails, else the tool's bytes. -/
def optimize_jpeg_mozjpeg (env : Env) (rgb_data : List Nat) (width height : Nat)
    (quality : Nat) : Option (List Nat) :=
  if ¬env.tools "mozjpeg" then none
  else env.cjpegRun rgb_data width height quality

/-- Python truthiness of an optional dimension: present and nonzero. -/
def truthyQ (o : Option ℚ) : Bool := decide (o.getD 0 ≠ 0)

/-- Multiply a drawing's extent and its transform by a uniform scale. -/
def applyScale (d : Drawing) (s : ℚ) : Drawing :=
  { width := d.width * s, height := d.height * s, sx := d.sx * s, sy := d.sy * s }

/-- Lines 344-357 of `rasterize_svg`: the target-dimension scaling step.
Per-axis ratios default to 1 when the dimension is not given (or the
drawing's own extent is falsy); with both targets the smaller ratio is
used, with one only that axis's ratio; the chosen scale multiplies both
the extent and the drawing transform. -/
def scaleDrawing (width height : Option ℚ) (d : Drawing) : Drawing :=
  if truthyQ width ∨ truthyQ height then
    let scale_x : ℚ := if truthyQ width ∧ d.width ≠ 0 then width.getD 0 / d.width else 1
    let scale_y : ℚ := if truthyQ height ∧ d.height ≠ 0 then height.getD 0 / d.height else 1
    let scale : ℚ :=
      if truthyQ width ∧ truthyQ height then min scale_x scale_y
      else if truthyQ width then scale_x else scale_y
    applyScale d scale
  else d

/-- Lines 316-331: strip whitespace, an XML declaration and a DOCTYPE
header from the decoded SVG text. -/
def cleanSvgText (l : List Char) : List Char :=
  let s1 := pyStrip l
  let s2 :=
    if strStarts s1 ("<?xml".toList) then
      let rest := s1.dropWhile (fun c => c ≠ '?')
      match rest with
      | '?' :: '>' :: tail => pyStrip tail
      | _ => s1
    else s1
  if strStarts s2 ("<!DOCTYPE".toList) then
    pyStrip ((s2.dropWhile (fun c => c ≠ '>')).drop 1)
  else s2

/-- Lines 284-384, `rasterize_svg`: check lazy SVG support, clean the
markup, parse it into a drawing, apply the scaling step, render through
the PDF intermediate at the given dpi; each failure raises. -/
def rasterize_svg (env : Env) (svg_data : List Nat) (width height : Option ℚ)
    (dpi : Nat) : Except String PILImage :=
  if ¬env.svgOk then
    .error "SVG support requires svglib, reportlab, and pdf2image"
  else
    let cleaned := cleanSvgText (utf8Ignore svg_data)
    match env.svg2rlg cleaned with
    | none => .error "Failed to parse SVG file"
    | some drawing =>
      let drawing2 := scaleDrawing width height drawing
      match env.convert_from_bytes drawing2 dpi with
      | some img => .ok img
      | none => .error "PDF conversion produced no images"

/-- Lines 641-653: the AVIF target branch — lossless forces quality 100
and the lossless flag; any failure of the writer is wrapped into a
`RuntimeError`. -/
def avifBranch (env : Env) (img : PILImage) (quality : Nat) (lossless : Bool) :
    Except ConvError Encoded :=
  let kw : SaveOpts :=
    if lossless then
      { format := some "AVIF", quality := some 100, lossless := some true, optimize := none }
    else
      { format := some "AVIF", quality := some quality, lossless := none, optimize := none }
  match pilSave env kw img with
  | .ok e => .ok e
  | .error _ => .error (.encodeError "AVIF encoding failed. Make sure pillow-avif-plugin is installed")

/-- Lines 656-675: the WEBP target branch — native encode when libwebp is
present, falling back to the general-purpose writer with the same
quality/lossless options on native failure or absence. -/
def webpTargetBranch (env : Env) (img : PILImage) (rgba_data : List Nat)
    (width height quality : Nat) (lossless : Bool) : Except ConvError Encoded :=
  if env.libwebp then
    match encode_to_webp env rgba_data width height quality lossless with
    | .ok webp_data => .ok (.nativeWebp webp_data)
    | .error _ =>
      pilSave env { format := some "WEBP", quality := some quality
                    lossless := some lossless, optimize := none } img
  else
    pilSave env { format := some "WEBP", quality := some quality
                  lossless := some lossless, optimize := none } img

/-- Lines 678-690: the WEBP input re-decode — when the declared format is
WEBP and libwebp is present, re-decode the original bytes natively and
rebuild the image from them; on native failure reopen the bytes with the
general-purpose library and normalize to RGBA. -/
def webpInputRedecode (env : Env) (image_data : List Nat) (img : PILImage) :
    Except ConvError PILImage :=
  if img.format = some "WEBP" ∧ env.libwebp then
    match decode_from_webp env image_data with
    | .ok (rgba, w, h) => .ok (fromBytes w h rgba)
    | .error _ =>
      match env.pilOpen image_data with
      | .ok i => .ok (toRGBA i)
      | .error e => .error (.decodeError e)
  else .ok img

/-- Lines 705-717: the JPEG encode step after alpha flattening — the
MozJPEG round trip when `optimize` is set and it yields bytes, else the
general-purpose JPEG writer with quality and its internal optimize flag. -/
def jpegEncode (env : Env) (img : PILImage) (quality : Nat) (optimize : Bool) :
    Except ConvError Encoded :=
  match (if optimize then
           optimize_jpeg_mozjpeg env img.tobytes img.width img.height quality
         else none) with
  | some data => .ok (.mozjpegOut data)
  | none =>
    pilSave env { format := some "JPEG", quality := some quality
                  lossless := none, optimize := some true } img

/-- Lines 693-736: the format-specific final save — JPEG family flattens
alpha then encodes, PNG saves with the internal optimize flag and
optionally reruns the external optimizer, BMP drops alpha, and any other
target falls through to a bare save with an empty options set. -/
def finalSave (env : Env) (ofmt : String) (img : PILImage) (quality : Nat)
    (optimize : Bool) : Except ConvError Encoded :=
  if ofmt = "jpeg" ∨ ofmt = "jpg" ∨ ofmt = "jfif" then
    jpegEncode env (if img.mode = .RGBA then flattenWhite img else img) quality optimize
  else if ofmt = "png" then
    match pilSave env { format := some "PNG", quality := none
                        lossless := none, optimize := some true } img with
    | .ok e => if optimize then .ok (optimize_png env e "auto") else .ok e
    | .error e => .error e
  else if ofmt = "bmp" then
    pilSave env { format := some "BMP", quality := none, lossless := none, optimize := none }
      (if img.mode = .RGBA then toRGB img else img)
  else
    pilSave env { format := none, quality := none, lossless := none, optimize := none } img

/-- Lines 605-631: sniff the input and produce the provisional image —
rasterizing SVG (wrapping failures) or opening with the general-purpose
library (wrapping failures into the could-not-identify error). -/
def decodeStage (env : Env) (image_data : List Nat) (name : Option String) :
    Except ConvError PILImage :=
  if sniffSvg image_data name then
    match rasterize_svg env image_data none none 96 with
    | .ok i => .ok i
    | .error e => .error (.rasterizeError ("SVG rasterization failed: " ++ e))
  else
    match env.pilOpen image_data with
    | .ok i => .ok i
    | .error e => .error (.decodeError ("Could not identify image format: " ++ e))

/-- Lines 570-736, `convert_img_format`: read the input bytes, sniff and
decode, normalize to RGBA, then dispatch — AVIF and WEBP targets return
from their branches; otherwise the WEBP input re-decode may replace the
image before the format-specific final save. -/
def convert_img_format (env : Env) (image_file : Input) (output_format : String)
    (quality : Nat) (lossless : Bool) (optimize : Bool) : Except ConvError Encoded :=
  match readInput image_file with
  | .error e => .error e
  | .ok image_data =>
    match decodeStage env image_data (inputName image_file) with
    | .error e => .error e
    | .ok i0 =>
      let img := toRGBA i0
      if pyLower output_format = "avif" then avifBranch env img quality lossless
      else if pyLower output_format = "webp" then
        webpTargetBranch env img img.tobytes img.width img.height quality lossless
      else
        match webpInputRedecode env image_data img with
        | .error e => .error e
        | .ok imgF => finalSave env (pyLower output_format) imgF quality optimize

/-! ### Helper lemmas -/

theorem readInput_bytes_of_ne (d : List Nat) (h : d ≠ []) : readInput (.bytes d) = .ok d := by
  simp [readInput, h]

theorem decodeStage_raster (env : Env) (d : List Nat) (n : Option String) (img : PILImage)
    (hs : sniffSvg d n = false) (ho : env.pilOpen d = .ok img) :
    decodeStage env d n = .ok img := by
  simp [decodeStage, hs, ho]

theorem toRGBA_of_rgba (img : PILImage) (h : img.mode = .RGBA) : toRGBA img = img := by
  unfold toRGBA; rw [h]

/-! ### Concrete environments and images used as witnesses -/

/-- A 1-by-1 RGBA image used in witnesses. -/
def imgW : PILImage :=
  { mode := .RGBA, width := 1, height := 1, px := [⟨1, 2, 3, 4⟩], format := none }

/-- An environment with no native libraries and no external tools. -/
def envNoWebp : Env :=
  { libwebp := false, avifOk := true, tools := fun _ => false
    pilOpen := fun _ => .error "cannot identify image file"
    WebPEncodeRGBA := fun _ _ _ _ _ => none
    WebPEncodeLosslessRGBA := fun _ _ _ _ => none
    WebPGetInfo := fun _ => none
    WebPDecodeRGBA := fun _ => none
    svgOk := false, svg2rlg := fun _ => none
    convert_from_bytes := fun _ _ => none
    pngToolRun := fun _ _ => none
    cjpegRun := fun _ _ _ _ => none }

/-! ### Claims -/

/-- C2: for every pixel buffer and WEBP encode request, when the native
encode fails in any documented way (collapsed into the native oracle's
`none` result, or a raised error from an absent library) or libwebp is
unavailable, the WEBP target branch falls back to the general-purpose
writer with the same quality/lossless options, returning it successfully
— no error from the native path reaches the caller. -/
theorem claim_C2 (env : Env) (img : PILImage) (rgba_data : List Nat)
    (width height quality : Nat) (lossless : Bool)
    (hfail : env.libwebp = false ∨
      (lossless = true ∧ env.WebPEncodeLosslessRGBA rgba_data width height (width * 4) = none) ∨
      (lossless = false ∧ env.WebPEncodeRGBA rgba_data width height (width * 4) quality = none)) :
    webpTargetBranch env img rgba_data width height quality lossless
      = .ok (.pil { format := some "WEBP", quality := some quality
                    lossless := some lossless, optimize := none } img) := by
  cases hw : env.libwebp with
  | false => simp [webpTargetBranch, hw, pilSave]
  | true =>
    rcases hfail with h | ⟨hl, h⟩ | ⟨hl, h⟩
    · rw [hw] at h; cases h
    · simp [webpTargetBranch, hw, encode_to_webp, hl, h, pilSave]
    · simp [webpTargetBranch, hw, encode_to_webp, hl, h, pilSave]

/-- C2 witness: with libwebp unavailable the fallback save is returned. -/
theorem claim_C2_witness :
    webpTargetBranch envNoWebp imgW [1, 2, 3, 4] 1 1 80 false
      = .ok (.pil { format := some "WEBP", quality := some 80
                    lossless := some false, optimize := none } imgW) :=
  claim_C2 envNoWebp imgW [1, 2, 3, 4] 1 1 80 false (Or.inl rfl)

/-- C3: converting RGBA input to the JPEG family flattens alpha by
compositing onto an opaque white background with alpha as the blend
weight: every pixel with alpha 0 becomes exactly (255,255,255) in the
flattened RGB buffer, which is the buffer the JPEG encode step receives. -/
theorem claim_C3 (img : PILImage) (i : Nat) (p : Pixel) (env : Env)
    (quality : Nat) (optimize : Bool) (f : String)
    (hp : img.px[i]? = some p) (ha : p.a = 0)
    (hf : f = "jpeg" ∨ f = "jpg" ∨ f = "jfif") (hm : img.mode = .RGBA) :
    (flattenWhite img).px[i]? = some ⟨255, 255, 255, 255⟩ ∧
    (∀ c, blendWhite c 0 = 255) ∧
    finalSave env f img quality optimize
      = jpegEncode env (flattenWhite img) quality optimize := by
  have hb : ∀ c, blendWhite c 0 = 255 := by
    intro c
    simp [blendWhite, muldiv255]
  refine ⟨?_, hb, ?_⟩
  · simp only [flattenWhite, List.getElem?_map, hp, Option.map_some']
    rw [ha, hb, hb, hb]
  · rcases hf with hf | hf | hf <;> subst hf <;> simp [finalSave, hm]

/-- C3 witness: a 2-by-1 image whose first pixel is fully transparent
flattens that pixel to pure white. -/
theorem claim_C3_witness :
    (flattenWhite { mode := .RGBA, width := 2, height := 1
                    px := [⟨10, 20, 30, 0⟩, ⟨50, 60, 70, 255⟩], format := none }).px[0]?
      = some ⟨255, 255, 255, 255⟩ ∧
    (∀ c, blendWhite c 0 = 255) ∧
    finalSave envNoWebp "jpeg"
        { mode := .RGBA, width := 2, height := 1
          px := [⟨10, 20, 30, 0⟩, ⟨50, 60, 70, 255⟩], format := none } 80 false
      = jpegEncode envNoWebp
          (flattenWhite { mode := .RGBA, width := 2, height := 1
                          px := [⟨10, 20, 30, 0⟩, ⟨50, 60, 70, 255⟩], format := none }) 80 false :=
  claim_C3 _ 0 ⟨10, 20, 30, 0⟩ envNoWebp 80 false "jpeg" (by decide) rfl (Or.inl rfl) rfl

/-- C4: empty input — an empty byte buffer or a stream yielding no bytes
— makes the conversion fail immediately with the empty-input error, for
every environment, target and option set; no sniffing or decoding runs
(the result does not depend on the environment at all). -/
theorem claim_C4 (env : Env) (output_format : String) (quality : Nat)
    (lossless optimize : Bool) (name : Option String) :
    convert_img_format env (.bytes []) output_format quality lossless optimize
      = .error (.inputError "Empty image data provided") ∧
    convert_img_format env (.stream [] name) output_format quality lossless optimize
      = .error (.inputError
          "Could not read image file: Empty file or could not read file data") := by
  exact ⟨rfl, rfl⟩

/-- C5: a BMP conversion of an RGBA buffer drops the alpha channel
entirely with no background blending — the saved image is the RGB
conversion whose color channels are unchanged — so an opaque red input
stays exactly (255,0,0). -/
theorem claim_C5 (env : Env) (img : PILImage) (quality : Nat) (optimize : Bool)
    (hm : img.mode = .RGBA) :
    finalSave env "bmp" img quality optimize
      = .ok (.pil { format := some "BMP", quality := none, lossless := none, optimize := none }
              (toRGB img)) ∧
    (toRGB img).mode = .RGB ∧
    (∀ (i : Nat) (p : Pixel), img.px[i]? = some p →
      (toRGB img).px[i]? = some ⟨p.r, p.g, p.b, 255⟩) := by
  refine ⟨by simp [finalSave, hm, pilSave], rfl, fun i p hp => ?_⟩
  simp only [toRGB, List.getElem?_map, hp, Option.map_some']

/-- C5 witness: a 10-by-10 fully-opaque red image converts to a BMP save
of an RGB image whose pixels are all (255,0,0). -/
theorem claim_C5_witness :
    finalSave envNoWebp "bmp"
        { mode := .RGBA, width := 10, height := 10
          px := List.replicate 100 ⟨255, 0, 0, 255⟩, format := some "PNG" } 80 false
      = .ok (.pil { format := some "BMP", quality := none, lossless := none, optimize := none }
              (toRGB { mode := .RGBA, width := 10, height := 10
                       px := List.replicate 100 ⟨255, 0, 0, 255⟩, format := some "PNG" })) ∧
    (toRGB { mode := .RGBA, width := 10, height := 10
             px := List.replicate 100 ⟨255, 0, 0, 255⟩, format := some "PNG" }).px
      = List.replicate 100 ⟨255, 0, 0, 255⟩ :=
  ⟨(claim_C5 envNoWebp _ 80 false rfl).1, by decide⟩

/-- C7: PNG conversions with optimize requested run the external
optimizer pass over the already-encoded result; the pass prefers oxipng
whenever it is present, and on any failure — the chosen tool unavailable
or its subprocess round trip failing — the pre-optimization result is
returned unchanged instead of failing the conversion. -/
theorem claim_C7 (env : Env) (img : PILImage) (quality : Nat) (e : Encoded) :
    (finalSave env "png" img quality true
      = .ok (optimize_png env
          (.pil { format := some "PNG", quality := none, lossless := none
                  optimize := some true } img) "auto")) ∧
    (env.tools "oxipng" = true →
      optimize_png env e "auto"
        = match env.pngToolRun "oxipng" e with
          | some o => o
          | none => e) ∧
    (env.tools "oxipng" = true → env.pngToolRun "oxipng" e = none →
      optimize_png env e "auto" = e) ∧
    (env.tools "oxipng" = false → env.tools "optipng" = false →
      optimize_png env e "auto" = e) := by
  refine ⟨by simp [finalSave, pilSave], fun h1 => ?_, fun h1 h2 => ?_, fun h1 h2 => ?_⟩
  · simp [optimize_png, h1]
  · simp [optimize_png, h1, h2]
  · simp [optimize_png, h1, h2]

/-- C7 witness: with oxipng present but its subprocess failing, the
optimizer pass returns the pre-optimization artifact unchanged. -/
theorem claim_C7_witness :
    optimize_png
      { envNoWebp with tools := fun t => t == "oxipng" }
      (.pil { format := some "PNG", quality := none, lossless := none
              optimize := some true } imgW) "auto"
      = .pil { format := some "PNG", quality := none, lossless := none
               optimize := some true } imgW :=
  (claim_C7 { envNoWebp with tools := fun t => t == "oxipng" } imgW 80 _).2.2.1
    (by decide) rfl

/-- C9: the SVG sniff is total — on every byte buffer it returns one of
the two classifications — and any input whose decoded, trimmed head does
not begin with an XML declaration or an svg tag, with no `.svg` filename
available, is classified as raster (`false`). -/
theorem claim_C9 (data : List Nat) (name : Option String) :
    (sniffSvg data name = true ∨ sniffSvg data name = false) ∧
    (svgTextSniff data = false → svgNameSniff name = false →
      sniffSvg data name = false) := by
  refine ⟨?_, fun h1 h2 => ?_⟩
  · cases h : sniffSvg data name
    · exact Or.inr rfl
    · exact Or.inl rfl
  · simp [sniffSvg, h1, h2]

/-- C9 witness: the PNG magic bytes with no filename classify as raster. -/
theorem claim_C9_witness :
    sniffSvg [0x89, 0x50, 0x4E, 0x47, 0x0D, 0x0A, 0x1A, 0x0A] none = false :=
  (claim_C9 [0x89, 0x50, 0x4E, 0x47, 0x0D, 0x0A, 0x1A, 0x0A] none).2 (by decide) (by decide)

/-- C6: for a drawing with positive intrinsic extent, the SVG scaling
step applies the isotropic ratio target/intrinsic of the single given
axis to both axes, and with both targets given applies the uniform scale
min of the two implied ratios — to the extent and the drawing transform
alike, so the aspect ratio is never distorted. -/
theorem claim_C6 (d : Drawing) (w h : ℚ) (hw : 0 < d.width) (hh : 0 < d.height) :
    (0 < w → scaleDrawing (some w) none d = applyScale d (w / d.width)) ∧
    (0 < h → scaleDrawing none (some h) d = applyScale d (h / d.height)) ∧
    (0 < w → 0 < h →
      scaleDrawing (some w) (some h) d = applyScale d (min (w / d.width) (h / d.height))) := by
  refine ⟨fun hw0 => ?_, fun hh0 => ?_, fun hw0 hh0 => ?_⟩
  · simp [scaleDrawing, truthyQ, hw0.ne', hw.ne']
  · simp [scaleDrawing, truthyQ, hh0.ne', hh.ne']
  · simp [scaleDrawing, truthyQ, hw0.ne', hh0.ne', hw.ne', hh.ne']

/-- C6 witness: a 4-by-2 drawing scaled to fit 8-by-3 takes the smaller
ratio 3/2 on both axes. -/
theorem claim_C6_witness :
    scaleDrawing (some 8) (some 3) ⟨4, 2, 1, 1⟩
      = applyScale ⟨4, 2, 1, 1⟩ (min ((8 : ℚ) / 4) ((3 : ℚ) / 2)) :=
  (claim_C6 ⟨4, 2, 1, 1⟩ 8 3 (by decide) (by decide)).2.2 (by decide) (by decide)

/-- C8 counterexample: with the native library unavailable, a lossless
WEBP request is served by the general-purpose fallback writer, which
receives the caller's quality unchanged — so quality 50 and quality 80
produce different encodes and the output is not independent of quality. -/
theorem claim_C8_counterexample :
    webpTargetBranch envNoWebp imgW [1, 2, 3, 4] 1 1 50 true
      ≠ webpTargetBranch envNoWebp imgW [1, 2, 3, 4] 1 1 80 true := by
  decide

/-- C8 amended: with lossless requested, the AVIF branch and the native
WEBP encode path are independent of the quality argument (AVIF forces
quality to 100, the native lossless entry point takes no quality); only
the general-purpose WEBP fallback still receives the caller's quality. -/
theorem claim_C8_amended (env : Env) (img : PILImage) (rgba_data : List Nat)
    (width height q1 q2 : Nat) :
    (avifBranch env img q1 true = avifBranch env img q2 true) ∧
    (env.libwebp = true →
      ∀ out, env.WebPEncodeLosslessRGBA rgba_data width height (width * 4) = some out →
        webpTargetBranch env img rgba_data width height q1 true = .ok (.nativeWebp out) ∧
        webpTargetBranch env img rgba_data width height q2 true = .ok (.nativeWebp out)) := by
  refine ⟨rfl, fun hw out hout => ⟨?_, ?_⟩⟩ <;>
    simp [webpTargetBranch, hw, encode_to_webp, hout]

/-- Environment with libwebp present and a successful lossless encode. -/
def envWebpLossless : Env :=
  { envNoWebp with libwebp := true, WebPEncodeLosslessRGBA := fun _ _ _ _ => some [9, 9] }

/-- C8 witness: a successful native lossless encode yields the same
bytes for quality 50 and quality 80. -/
theorem claim_C8_witness :
    webpTargetBranch envWebpLossless imgW [1, 2, 3, 4] 1 1 50 true = .ok (.nativeWebp [9, 9]) ∧
    webpTargetBranch envWebpLossless imgW [1, 2, 3, 4] 1 1 80 true = .ok (.nativeWebp [9, 9]) :=
  (claim_C8_amended envWebpLossless imgW [1, 2, 3, 4] 1 1 50 80).2 rfl [9, 9] rfl

/-- The provisional PIL decode used in the C1 counterexample: a 1-by-1
RGBA image whose declared container format is WEBP. -/
def imgA : PILImage :=
  { mode := .RGBA, width := 1, height := 1, px := [⟨10, 20, 30, 40⟩], format := some "WEBP" }

/-- Environment for the C1 counterexample: libwebp present, the
provisional decode yields `imgA`, the native decode succeeds with
different pixel values, and the native encode returns its input bytes. -/
def envC1 : Env :=
  { libwebp := true, avifOk := true, tools := fun _ => false
    pilOpen := fun _ => .ok imgA
    WebPEncodeRGBA := fun rgba _ _ _ _ => some rgba
    WebPEncodeLosslessRGBA := fun rgba _ _ _ => some rgba
    WebPGetInfo := fun _ => some (1, 1)
    WebPDecodeRGBA := fun _ => some [1, 2, 3, 4]
    svgOk := false, svg2rlg := fun _ => none
    convert_from_bytes := fun _ _ => none
    pngToolRun := fun _ _ => none
    cjpegRun := fun _ _ _ _ => none }

/-- RGB-mode variant of the provisional decode, still declared WEBP. -/
def imgB : PILImage :=
  { mode := .RGB, width := 1, height := 1, px := [⟨10, 20, 30, 255⟩], format := some "WEBP" }

/-- `envC1` with the provisional decode yielding the RGB-mode image. -/
def envC1b : Env := { envC1 with pilOpen := fun _ => .ok imgB }

/-- C1 counterexample: the native re-decode result is not used for every
target format.  With a WEBP target the provisional pixels (10,20,30,40)
are encoded even though the native decode succeeds with (1,2,3,4); and
with a PNG target but an RGB-mode provisional decode, the RGBA
normalization erases the declared format, the re-decode is skipped, and
the provisional pixels are saved. -/
theorem claim_C1_counterexample :
    (convert_img_format envC1 (.bytes [0]) "webp" 80 false false
        = .ok (.nativeWebp [10, 20, 30, 40]) ∧
      decode_from_webp envC1 [0] = .ok ([1, 2, 3, 4], 1, 1) ∧
      ([10, 20, 30, 40] : List Nat) ≠ [1, 2, 3, 4]) ∧
    (convert_img_format envC1b (.bytes [0]) "png" 80 false false
        = .ok (.pil { format := some "PNG", quality := none, lossless := none
                      optimize := some true } (toRGBA imgB)) ∧
      decode_from_webp envC1b [0] = .ok ([1, 2, 3, 4], 1, 1) ∧
      (toRGBA imgB).px ≠ bytesToPixels [1, 2, 3, 4]) := by
  exact ⟨⟨by decide, by decide, by decide⟩, ⟨by decide, by decide, by decide⟩⟩

/-- C1 amended: the native re-decode of a WEBP-declared input is
performed, and its result used as the canonical buffer (keeping the
provisional decode only on native failure), exactly when the requested
target is neither WEBP nor AVIF — those branches return before the
re-decode — and when the provisional decode is already RGBA, since the
RGBA normalization erases the declared format. -/
theorem claim_C1_amended (env : Env) (d : List Nat) (img : PILImage)
    (output_format : String) (quality : Nat) (lossless optimize : Bool)
    (hne : d ≠ []) (hsniff : sniffSvg d none = false)
    (hopen : env.pilOpen d = .ok img)
    (hmode : img.mode = .RGBA) (hfmt : img.format = some "WEBP")
    (hlib : env.libwebp = true)
    (hta : pyLower output_format ≠ "avif") (htw : pyLower output_format ≠ "webp") :
    (∀ rgba w2 h2, decode_from_webp env d = .ok (rgba, w2, h2) →
      convert_img_format env (.bytes d) output_format quality lossless optimize
        = finalSave env (pyLower output_format) (fromBytes w2 h2 rgba) quality optimize) ∧
    (∀ e, decode_from_webp env d = .error e →
      convert_img_format env (.bytes d) output_format quality lossless optimize
        = finalSave env (pyLower output_format) img quality optimize) := by
  have hread : readInput (.bytes d) = .ok d := readInput_bytes_of_ne d hne
  have hdec : decodeStage env d (inputName (.bytes d)) = .ok img := by
    simpa [inputName] using decodeStage_raster env d none img hsniff hopen
  have hRGBA : toRGBA img = img := toRGBA_of_rgba img hmode
  constructor
  · intro rgba w2 h2 hwd
    simp [convert_img_format, hread, hdec, hRGBA, hta, htw, webpInputRedecode,
      hfmt, hlib, hwd]
  · intro e hwd
    simp [convert_img_format, hread, hdec, hRGBA, hta, htw, webpInputRedecode,
      hfmt, hlib, hwd, hopen]

/-- C1 witness: with a PNG target and an RGBA WEBP-declared provisional
decode, the conversion proceeds with the natively decoded pixels. -/
theorem claim_C1_witness :
    convert_img_format envC1 (.bytes [0]) "png" 80 false false
      = finalSave envC1 "png" (fromBytes 1 1 [1, 2, 3, 4]) 80 false :=
  (claim_C1_amended envC1 [0] imgA "png" 80 false false (by decide) (by decide)
    rfl rfl rfl rfl (by decide) (by decide)).1 [1, 2, 3, 4] 1 1 rfl

/-- `webpInputRedecode` cannot fail when the original open succeeded:
every branch falls back to the image reopened from the same bytes. -/
theorem webpInputRedecode_ok (env : Env) (d : List Nat) (img img0 : PILImage)
    (hopen : env.pilOpen d = .ok img0) :
    ∃ i2, webpInputRedecode env d img = .ok i2 := by
  unfold webpInputRedecode
  split
  · rcases hdec : decode_from_webp env d with e | ⟨rgba, w, h⟩
    · exact ⟨toRGBA img0, by simp [hdec, hopen]⟩
    · exact ⟨fromBytes w h rgba, by simp [hdec]⟩
  · exact ⟨img, rfl⟩

/-- C10: for an unrecognized target format, the conversion reaches the
final save with an empty options set (no format) against an in-memory
buffer with no filename, so the general-purpose library raises its own
error rather than returning an encoded result or an `EncodeError`. -/
theorem claim_C10 (env : Env) (d : List Nat) (img : PILImage)
    (output_format : String) (quality : Nat) (lossless optimize : Bool)
    (hne : d ≠ []) (hsniff : sniffSvg d none = false)
    (hopen : env.pilOpen d = .ok img)
    (hfmt : pyLower output_format ∉
      (["avif", "webp", "png", "jpeg", "jpg", "jfif", "bmp"] : List String)) :
    convert_img_format env (.bytes d) output_format quality lossless optimize
      = .error (.pilError "unknown file extension: no format and no filename") := by
  have hread : readInput (.bytes d) = .ok d := readInput_bytes_of_ne d hne
  have hdec : decodeStage env d (inputName (.bytes d)) = .ok img := by
    simpa [inputName] using decodeStage_raster env d none img hsniff hopen
  simp only [List.mem_cons, List.not_mem_nil, or_false, not_or] at hfmt
  obtain ⟨h1, h2, h3, h4, h5, h6, h7⟩ := hfmt
  obtain ⟨i2, hi⟩ := webpInputRedecode_ok env d (toRGBA img) img hopen
  have hfin : finalSave env (pyLower output_format) i2 quality optimize
      = .error (.pilError "unknown file extension: no format and no filename") := by
    simp [finalSave, h3, h4, h5, h6, h7, pilSave]
  simp [convert_img_format, hread, hdec, h1, h2, hi, hfin]

/-- C10 witness: a TIFF target with a decodable raster input fails with
the library's missing-format error. -/
theorem claim_C10_witness :
    convert_img_format envC1 (.bytes [0]) "tiff" 80 false false
      = .error (.pilError "unknown file extension: no format and no filename") :=
  claim_C10 envC1 [0] imgA "tiff" 80 false false (by decide) (by decide) rfl (by decide)
